import Mathlib

/-
Verification development for the raycast-shadcn-install extension.

The extension source consists of src/registries.ts (the two built-in
registry descriptors) and the main view component embedded in
src/package.json.  That file carries two revisions of the component;
the later revision (the one whose action panel pastes and copies
install-command strings and whose fallback branch performs per-field
type narrowing) is the current code and is the one embedded here.

Modelling conventions:
  - TypeScript interfaces become Lean structures with the same field
    names (the files field of the raw Kitze items keeps its nested
    shape, the normalized Component carries a flat list of strings).
  - Parsed JSON values are a small inductive type; JSON numbers are
    modelled as integers, which is enough for the string coercions the
    fallback branch performs.
  - React state (selectedRegistry, components, isLoading, error) is a
    record, and each handler becomes a function from state to state.
-/

namespace ShadcnInstall

/-- Registry descriptor, from src/registries.ts (interface Registry). -/
structure Registry where
  name : String
  jsonUrl : String
  componentJsonBaseUrl : String
  description : String
  icon : Option String
deriving Repr, DecidableEq

/-- First built-in registry, from src/registries.ts (availableRegistries). -/
def shadcnRegistry : Registry :=
  { name := "Shadcn UI"
    jsonUrl := "https://ui.shadcn.com/registry/index.json"
    componentJsonBaseUrl := "https://ui.shadcn.com/registry/components/r/"
    description := "Official shadcn components"
    icon := some "🎨" }

/-- Second built-in registry, from src/registries.ts (availableRegistries). -/
def kitzeRegistry : Registry :=
  { name := "Kitze UI"
    jsonUrl := "https://ui.kitze.io/registry.json"
    componentJsonBaseUrl := "https://ui.kitze.io/r/"
    description := "Kitze UI components"
    icon := some "🧩" }

/-- The hard-coded registry list, from src/registries.ts. -/
def availableRegistries : List Registry := [shadcnRegistry, kitzeRegistry]

/-- Normalized component shape (interface Component in the main file). -/
structure Component where
  name : String
  description : Option String
  dependencies : Option (List String)
  registryDependencies : Option (List String)
  files : List String
  type : String
deriving Repr, DecidableEq

/-- Raw item of the Shadcn index.json (interface ShadcnIndexComponentRaw). -/
structure ShadcnIndexComponentRaw where
  name : String
  dependencies : Option (List String)
  registryDependencies : Option (List String)
  files : List String
  type : String
deriving Repr, DecidableEq

/-- File entry of a Kitze registry item (interface KitzeFile). -/
structure KitzeFile where
  path : String
  type : String
deriving Repr, DecidableEq

/-- Raw item of the Kitze registry.json (interface KitzeComponentRaw). -/
structure KitzeComponentRaw where
  name : String
  title : Option String
  description : Option String
  dependencies : Option (List String)
  registryDependencies : Option (List String)
  files : List KitzeFile
  type : String
deriving Repr, DecidableEq

/-- Overall Kitze response (interface KitzeRegistryResponse; the schema
field is named schemaUrl here because a dollar sign cannot start a Lean
field name). -/
structure KitzeRegistryResponse where
  schemaUrl : String
  name : String
  homepage : String
  items : List KitzeComponentRaw
deriving Repr, DecidableEq

/-- Parsed JSON value, as produced by response.json().  Numbers are
restricted to integers; object fields are an association list with the
keys already deduplicated, as JSON.parse leaves them. -/
inductive Json where
  | null : Json
  | bool : Bool → Json
  | num : Int → Json
  | str : String → Json
  | arr : List Json → Json
  | obj : List (String × Json) → Json

/-- Field lookup on the association list of a parsed JSON object. -/
def lookupField : List (String × Json) → String → Option Json
  | [], _ => none
  | (k, v) :: rest, key => if k = key then some v else lookupField rest key

/-- The combined check the fallback branch performs before reading a
field: typeof comp is object, comp is not null, and the key is present.
Only object values carry the named fields the branch reads. -/
def objField : Json → String → Option Json
  | Json.obj fields, key => lookupField fields key
  | _, _ => none

mutual

/-- JavaScript String(x) coercion for a parsed JSON value: null prints
as the word null, booleans and integers print as usual, a string is
returned as is, an array joins the coercions of its elements with
commas, and a plain object prints as the bracketed object tag. -/
def jsToString : Json → String
  | Json.null => "null"
  | Json.bool b => if b then "true" else "false"
  | Json.num n => toString n
  | Json.str s => s
  | Json.arr xs => jsArrayJoin xs
  | Json.obj _ => "[object Object]"

/-- Array.prototype.join with the default comma separator; a null
element contributes the empty string, as in JavaScript. -/
def jsArrayJoin : List Json → String
  | [] => ""
  | [Json.null] => ""
  | [x] => jsToString x
  | Json.null :: xs => "," ++ jsArrayJoin xs
  | x :: xs => jsToString x ++ "," ++ jsArrayJoin xs

end

/-- Fallback name coercion: a string name field is kept, anything else
falls back to the given default (source lines 436-439 and 459-462 use
the same conditional with defaults Unknown Component and unknown). -/
def strFieldOr (o : Option Json) (dflt : String) : String :=
  match o with
  | some (Json.str s) => s
  | _ => dflt

/-- Fallback description coercion: a string field is kept, anything
else becomes undefined (source lines 440-443). -/
def strFieldOpt (o : Option Json) : Option String :=
  match o with
  | some (Json.str s) => some s
  | _ => none

/-- Fallback array coercion: an array field has each element coerced
with String, anything else is rejected (source lines 444-458 apply this
to files, dependencies and registryDependencies). -/
def arrFieldMap (o : Option Json) : Option (List String) :=
  match o with
  | some (Json.arr xs) => some (xs.map jsToString)
  | _ => none

/-- The per-element fallback coercion of fetchComponents for an
unrecognized registry (source lines 434-472): every field is read with
a type check and replaced by a default when the check fails; files
defaults to the empty list where the optional fields default to
undefined. -/
def fallbackToComponent (comp : Json) : Component :=
  { name := strFieldOr (objField comp "name") "Unknown Component"
    description := strFieldOpt (objField comp "description")
    dependencies := arrFieldMap (objField comp "dependencies")
    registryDependencies := arrFieldMap (objField comp "registryDependencies")
    files := (arrFieldMap (objField comp "files")).getD []
    type := strFieldOr (objField comp "type") "unknown" }

/-- Fallback branch over the whole parsed array. -/
def processFallback (rawData : List Json) : List Component :=
  rawData.map fallbackToComponent

/-- Shadcn UI branch of fetchComponents (source lines 404-415): the
raw entry already matches the target shape; description is dropped and
files pass through unchanged. -/
def shadcnToComponent (comp : ShadcnIndexComponentRaw) : Component :=
  { name := comp.name
    description := none
    dependencies := comp.dependencies
    registryDependencies := comp.registryDependencies
    files := comp.files
    type := comp.type }

/-- Shadcn UI branch over the whole flat array response. -/
def processShadcn (rawComponents : List ShadcnIndexComponentRaw) : List Component :=
  rawComponents.map shadcnToComponent

/-- Kitze UI branch of fetchComponents (source lines 416-428): each
file object is reduced to its path field. -/
def kitzeToComponent (comp : KitzeComponentRaw) : Component :=
  { name := comp.name
    description := comp.description
    dependencies := comp.dependencies
    registryDependencies := comp.registryDependencies
    files := comp.files.map KitzeFile.path
    type := comp.type }

/-- Kitze UI branch over the items array of the response object. -/
def processKitzeResponse (registryResponse : KitzeRegistryResponse) : List Component :=
  registryResponse.items.map kitzeToComponent

/-- The validity filter applied to every branch before display (source
line 479): the component object is truthy, its name is a truthy string
(non-empty), and the name is not the sentinel Unknown Component. -/
def filterValid (processedComponents : List Component) : List Component :=
  processedComponents.filter fun c =>
    (c.name != "") && (c.name != "Unknown Component")

/-- React state of the Command component (the four useState hooks). -/
structure AppState where
  selectedRegistry : Option Registry
  components : List Component
  isLoading : Bool
  error : Option String
deriving Repr, DecidableEq

/-- Initial state of the four hooks. -/
def initialState : AppState :=
  { selectedRegistry := none, components := [], isLoading := false, error := none }

/-- The opening statements of fetchComponents (source lines 382-384),
executed before the network request is issued: loading on, error
cleared, components cleared. -/
def fetchStart (s : AppState) : AppState :=
  { s with isLoading := true, error := none, components := [] }

/-- Result of an HTTP response with a non-success status: the numeric
status, the status text, and the body when response.text() succeeded
(none when it threw and the placeholder is used instead). -/
structure HttpFailure where
  status : Nat
  statusText : String
  bodyText : Option String
deriving Repr, DecidableEq

/-- Best-effort body read (source lines 392-397): errorBody starts as
the placeholder Unknown error and is replaced only when the body can be
read. -/
def errorBodyText (f : HttpFailure) : String :=
  f.bodyText.getD "Unknown error"

/-- The error message thrown on a non-success status (source line 398). -/
def httpErrorMessage (f : HttpFailure) : String :=
  "HTTP " ++ toString f.status ++ ": " ++ f.statusText ++ " - " ++ errorBodyText f

/-- State after fetchComponents hits a non-success status: the thrown
message is caught at the fetch boundary (source lines 487-491) and
stored in the error state, loading ends, and the components stay as the
opening statements left them. -/
def fetchHttpError (s : AppState) (f : HttpFailure) : AppState :=
  { fetchStart s with error := some (httpErrorMessage f), isLoading := false }

/-- State after a successful fetch: the processed components of
whichever branch ran are filtered and stored (source lines 479-480),
and loading ends. -/
def fetchSuccess (s : AppState) (processedComponents : List Component) : AppState :=
  { fetchStart s with components := filterValid processedComponents, isLoading := false }

/-- handleGoBack (source lines 502-506): selection, components and
error are all cleared. -/
def handleGoBack (s : AppState) : AppState :=
  { s with selectedRegistry := none, components := [], error := none }

/-- The component manifest URL built by handlePasteComponentUrl
(source line 509). -/
def componentJsonUrl (registry : Registry) (componentName : String) : String :=
  registry.componentJsonBaseUrl ++ componentName ++ ".json"

/-- Content of the primary paste action (source line 604): the install
command carrying the full manifest URL. -/
def pasteInstallCommand (registry : Registry) (componentName : String) : String :=
  "npx shadcn-ui@latest add " ++ componentJsonUrl registry componentName

/-- Content of the secondary copy action (source line 610): the install
command carrying only the component name. -/
def copyInstallCommand (componentName : String) : String :=
  "npx shadcn-ui@latest add " ++ componentName

/-- The three clipboard-writing sites of the current revision:
handlePasteComponentUrl, the paste action and the copy action. -/
inductive ClipboardWrite where
  | pasteComponentUrl (registry : Registry) (componentName : String)
  | pasteInstallWithUrl (registry : Registry) (componentName : String)
  | copyInstallNameOnly (componentName : String)

/-- The string each clipboard-writing site places on the clipboard. -/
def clipboardText : ClipboardWrite → String
  | ClipboardWrite.pasteComponentUrl r n => componentJsonUrl r n
  | ClipboardWrite.pasteInstallWithUrl r n => pasteInstallCommand r n
  | ClipboardWrite.copyInstallNameOnly n => copyInstallCommand n

/-- Parsed URL as far as getCleanDepName consults it: only the
pathname component is read. -/
structure UrlParts where
  pathname : String
deriving Repr, DecidableEq

/-- String.prototype.endsWith, computed on the character lists. -/
def strEndsWith (s pat : String) : Bool :=
  pat.data.isSuffixOf s.data

/-- Split around the first occurrence of sep: the characters before it
and the characters after it, or none when sep does not occur. -/
def splitFirst (sep : List Char) : List Char → Option (List Char × List Char)
  | [] => if sep = [] then some ([], []) else none
  | c :: rest =>
    if sep.isPrefixOf (c :: rest) then some ([], (c :: rest).drop sep.length)
    else
      match splitFirst sep rest with
      | some (a, b) => some (c :: a, b)
      | none => none

/-- String.prototype.split with a one-character separator, as the code
applies it to the pathname: every separator starts a new segment, and
a leading separator yields a leading empty segment. -/
def splitOnChar (sep : Char) : List Char → List (List Char)
  | [] => [[]]
  | a :: rest =>
    let r := splitOnChar sep rest
    if a = sep then [] :: r
    else
      match r with
      | [] => [[a]]
      | x :: xs => (a :: x) :: xs

/-- String.prototype.replace with a string pattern: only the first
occurrence is replaced, and a string without the pattern is returned
unchanged. -/
def replaceFirstChars (s pat repl : List Char) : List Char :=
  match splitFirst pat s with
  | none => s
  | some (a, b) => a ++ repl ++ b

/-- getCleanDepName (source lines 566-579), with the URL constructor
abstracted as a parse function: when new URL(dep) succeeds it yields
the parts, when it throws it yields none.  On a parsed URL whose
pathname ends in .json, the pathname is split on slashes, the last
segment taken, and the first occurrence of .json removed; every other
input is returned unchanged. -/
def getCleanDepName (parseUrl : String → Option UrlParts) (dep : String) : String :=
  match parseUrl dep with
  | some url =>
    if strEndsWith url.pathname ".json" then
      let parts := splitOnChar '/' url.pathname.data
      let filename := parts.getLastD []
      String.mk (replaceFirstChars filename ".json".data [])
    else
      dep
  | none => dep

/-! Theorems.  Each claim of the specification is settled below; the
section comments only group them. -/

/-- Claim C2: every component in the displayed list, whatever branch
produced it, has a non-empty name different from Unknown Component;
entries failing either check were filtered out before display. -/
theorem displayed_components_valid_name
    (s : AppState) (processedComponents : List Component) (c : Component)
    (h : c ∈ (fetchSuccess s processedComponents).components) :
    c.name ≠ "" ∧ c.name ≠ "Unknown Component" := by
  have hmem := h
  simp only [fetchSuccess, filterValid, List.mem_filter, Bool.and_eq_true, bne_iff_ne,
    ne_eq] at hmem
  exact ⟨hmem.2.1, hmem.2.2⟩

/-- Closed instance of the C2 theorem at a concrete displayed list. -/
theorem displayed_components_valid_name_witness :
    let c : Component :=
      { name := "button", description := none, dependencies := none,
        registryDependencies := none, files := ["registry/ui/button.tsx"], type := "components:ui" }
    c.name ≠ "" ∧ c.name ≠ "Unknown Component" :=
  displayed_components_valid_name initialState
    [{ name := "button", description := none, dependencies := none,
       registryDependencies := none, files := ["registry/ui/button.tsx"], type := "components:ui" }]
    _ (by decide)

/-- Claim C5: handleGoBack returns the state machine to Unselected from
any state: the selection becomes none, the components list empty and
the error none, while the loading flag is untouched. -/
theorem go_back_resets_state (s : AppState) :
    (handleGoBack s).selectedRegistry = none
    ∧ (handleGoBack s).components = []
    ∧ (handleGoBack s).error = none
    ∧ (handleGoBack s).isLoading = s.isLoading :=
  ⟨rfl, rfl, rfl, rfl⟩

/-- Claim C9: the opening statements of every fetch reset the
components list to empty and the error to none before the request is
issued, leaving the selection untouched; replacement of this state is
the only way a prior fetch result is discarded. -/
theorem fetch_start_resets_state (s : AppState) :
    (fetchStart s).components = []
    ∧ (fetchStart s).error = none
    ∧ (fetchStart s).isLoading = true
    ∧ (fetchStart s).selectedRegistry = s.selectedRegistry :=
  ⟨rfl, rfl, rfl, rfl⟩

/-- Claim C3: for a well-formed Kitze UI response, the normalized files
field of each item is the flat list of the path fields of its file
objects, in the same order. -/
theorem kitze_files_flattened (registryResponse : KitzeRegistryResponse) :
    (processKitzeResponse registryResponse).map Component.files
      = registryResponse.items.map (fun comp => comp.files.map KitzeFile.path) := by
  simp [processKitzeResponse, kitzeToComponent, Function.comp]

/-- Claim C6: both install-command strings are deterministic functions
of the registry and the component name: equal inputs give equal
strings. -/
theorem install_commands_deterministic
    (r1 r2 : Registry) (n1 n2 : String) (hr : r1 = r2) (hn : n1 = n2) :
    pasteInstallCommand r1 n1 = pasteInstallCommand r2 n2
    ∧ copyInstallCommand n1 = copyInstallCommand n2 := by
  subst hr; subst hn; exact ⟨rfl, rfl⟩

/-- Closed instance of the C6 theorem at a concrete registry and name. -/
theorem install_commands_deterministic_witness :
    pasteInstallCommand shadcnRegistry "button" = pasteInstallCommand shadcnRegistry "button"
    ∧ copyInstallCommand "button" = copyInstallCommand "button" :=
  install_commands_deterministic shadcnRegistry shadcnRegistry "button" "button" rfl rfl

/-- Claim C7: every string the program places on the clipboard is
either the raw component manifest URL, or an install command that is
the fixed tool invocation followed by the manifest URL or by the bare
component name. -/
theorem clipboard_text_forms (w : ClipboardWrite) :
    ∃ r n, clipboardText w = componentJsonUrl r n
      ∨ clipboardText w = "npx shadcn-ui@latest add " ++ componentJsonUrl r n
      ∨ clipboardText w = "npx shadcn-ui@latest add " ++ n := by
  cases w with
  | pasteComponentUrl r n => exact ⟨r, n, Or.inl rfl⟩
  | pasteInstallWithUrl r n => exact ⟨r, n, Or.inr (Or.inl rfl)⟩
  | copyInstallNameOnly n => exact ⟨shadcnRegistry, n, Or.inr (Or.inr rfl)⟩

/-- Claim C4: on a non-success HTTP status the stored error state is
exactly the thrown message, and that message contains the numeric
status code, the status text, and the best-effort body, which is the
placeholder exactly when the body could not be read. -/
theorem http_error_message_contents (s : AppState) (f : HttpFailure) :
    (fetchHttpError s f).error = some (httpErrorMessage f)
    ∧ (∃ p q, httpErrorMessage f = p ++ toString f.status ++ q)
    ∧ (∃ p q, httpErrorMessage f = p ++ f.statusText ++ q)
    ∧ (∃ p q, httpErrorMessage f = p ++ errorBodyText f ++ q)
    ∧ (f.bodyText = none → errorBodyText f = "Unknown error") := by
  refine ⟨rfl, ⟨"HTTP ", ": " ++ f.statusText ++ " - " ++ errorBodyText f, ?_⟩,
    ⟨"HTTP " ++ toString f.status ++ ": ", " - " ++ errorBodyText f, ?_⟩,
    ⟨"HTTP " ++ toString f.status ++ ": " ++ f.statusText ++ " - ", "", ?_⟩, ?_⟩
  · simp [httpErrorMessage, String.append_assoc]
  · simp [httpErrorMessage, String.append_assoc]
  · simp [httpErrorMessage, String.append_assoc]
  · intro h; simp [errorBodyText, h]

/-- Closed instance of the C4 theorem: a 404 with unreadable body. -/
theorem http_error_message_contents_witness :
    (fetchHttpError initialState { status := 404, statusText := "Not Found", bodyText := none }).error
      = some (httpErrorMessage { status := 404, statusText := "Not Found", bodyText := none })
    ∧ errorBodyText { status := 404, statusText := "Not Found", bodyText := none } = "Unknown error" := by
  have h := http_error_message_contents initialState
    { status := 404, statusText := "Not Found", bodyText := none }
  exact ⟨h.1, h.2.2.2.2 rfl⟩

/-- A well-formed flat-array entry whose name happens to be the
literal sentinel string. -/
def sentinelNamedRaw : ShadcnIndexComponentRaw :=
  { name := "Unknown Component", dependencies := none, registryDependencies := none,
    files := ["registry/ui/x.tsx"], type := "components:ui" }

/-- Claim C1 counterexample: a flat-array entry with the non-empty name
Unknown Component does not appear in the displayed list at all, because
the validity filter of line 479 compares every name, from every branch,
against that sentinel.  The displayed list for this one-entry response
is empty. -/
theorem shadcn_sentinel_entry_dropped :
    sentinelNamedRaw.name ≠ ""
    ∧ (fetchSuccess initialState (processShadcn [sentinelNamedRaw])).components = [] := by
  constructor
  · decide
  · rfl

/-- Claim C1 as amended: for a well-formed flat-array response, every
entry whose name is non-empty and different from the sentinel Unknown
Component appears in the displayed list with its files array preserved
exactly as given. -/
theorem shadcn_valid_entry_displayed
    (s : AppState) (rawComponents : List ShadcnIndexComponentRaw)
    (comp : ShadcnIndexComponentRaw) (hmem : comp ∈ rawComponents)
    (hne : comp.name ≠ "") (hsent : comp.name ≠ "Unknown Component") :
    shadcnToComponent comp ∈ (fetchSuccess s (processShadcn rawComponents)).components
    ∧ (shadcnToComponent comp).files = comp.files := by
  refine ⟨?_, rfl⟩
  simp only [fetchSuccess, filterValid, processShadcn, List.mem_filter, List.mem_map,
    Bool.and_eq_true, bne_iff_ne, ne_eq]
  exact ⟨⟨comp, hmem, rfl⟩, hne, hsent⟩

/-- Closed instance of the amended C1 theorem at a one-entry response. -/
theorem shadcn_valid_entry_displayed_witness :
    let comp : ShadcnIndexComponentRaw :=
      { name := "button", dependencies := some ["react"], registryDependencies := none,
        files := ["registry/ui/button.tsx"], type := "components:ui" }
    shadcnToComponent comp ∈ (fetchSuccess initialState (processShadcn [comp])).components
    ∧ (shadcnToComponent comp).files = comp.files :=
  shadcn_valid_entry_displayed initialState _ _ (by decide) (by decide) (by decide)

/-- Claim C8: the fallback coercion is total over the elements of the
parsed array, and each field of its result is fixed by the per-field
checks: name keeps a string field and otherwise defaults to the
sentinel, description keeps a string field and otherwise becomes none,
files maps String over an array field and otherwise becomes the empty
list, the two dependency fields map String over an array field and
otherwise become none, and type keeps a string field and otherwise
defaults to unknown. -/
theorem fallback_coercion_total_fields (j : Json) :
    ((∀ s, objField j "name" = some (Json.str s) → (fallbackToComponent j).name = s)
      ∧ ((¬ ∃ s, objField j "name" = some (Json.str s)) →
          (fallbackToComponent j).name = "Unknown Component"))
    ∧ ((∀ s, objField j "description" = some (Json.str s) →
          (fallbackToComponent j).description = some s)
      ∧ ((¬ ∃ s, objField j "description" = some (Json.str s)) →
          (fallbackToComponent j).description = none))
    ∧ ((∀ xs, objField j "files" = some (Json.arr xs) →
          (fallbackToComponent j).files = xs.map jsToString)
      ∧ ((¬ ∃ xs, objField j "files" = some (Json.arr xs)) →
          (fallbackToComponent j).files = []))
    ∧ ((∀ xs, objField j "dependencies" = some (Json.arr xs) →
          (fallbackToComponent j).dependencies = some (xs.map jsToString))
      ∧ ((¬ ∃ xs, objField j "dependencies" = some (Json.arr xs)) →
          (fallbackToComponent j).dependencies = none))
    ∧ ((∀ xs, objField j "registryDependencies" = some (Json.arr xs) →
          (fallbackToComponent j).registryDependencies = some (xs.map jsToString))
      ∧ ((¬ ∃ xs, objField j "registryDependencies" = some (Json.arr xs)) →
          (fallbackToComponent j).registryDependencies = none))
    ∧ ((∀ s, objField j "type" = some (Json.str s) → (fallbackToComponent j).type = s)
      ∧ ((¬ ∃ s, objField j "type" = some (Json.str s)) →
          (fallbackToComponent j).type = "unknown")) := by
  refine ⟨⟨?_, ?_⟩, ⟨?_, ?_⟩, ⟨?_, ?_⟩, ⟨?_, ?_⟩, ⟨?_, ?_⟩, ?_, ?_⟩
  all_goals
    simp only [fallbackToComponent]
  · intro s h; rw [h]; rfl
  · intro h
    rcases hv : objField j "name" with _ | v
    · rfl
    · cases v with
      | str s => exact absurd ⟨s, hv⟩ h
      | _ => rfl
  · intro s h; rw [h]; rfl
  · intro h
    rcases hv : objField j "description" with _ | v
    · rfl
    · cases v with
      | str s => exact absurd ⟨s, hv⟩ h
      | _ => rfl
  · intro xs h; rw [h]; rfl
  · intro h
    rcases hv : objField j "files" with _ | v
    · rfl
    · cases v with
      | arr xs => exact absurd ⟨xs, hv⟩ h
      | _ => rfl
  · intro xs h; rw [h]; rfl
  · intro h
    rcases hv : objField j "dependencies" with _ | v
    · rfl
    · cases v with
      | arr xs => exact absurd ⟨xs, hv⟩ h
      | _ => rfl
  · intro xs h; rw [h]; rfl
  · intro h
    rcases hv : objField j "registryDependencies" with _ | v
    · rfl
    · cases v with
      | arr xs => exact absurd ⟨xs, hv⟩ h
      | _ => rfl
  · intro s h; rw [h]; rfl
  · intro h
    rcases hv : objField j "type" with _ | v
    · rfl
    · cases v with
      | str s => exact absurd ⟨s, hv⟩ h
      | _ => rfl

/-- A concrete non-uniform fallback element: string name, numeric and
null entries in files, no type field. -/
def sampleFallbackJson : Json :=
  Json.obj [("name", Json.str "card"), ("files", Json.arr [Json.str "a.tsx", Json.num 3, Json.null])]

/-- Closed instance of the C8 theorem at a concrete element: the name
and files clauses fire with their hypotheses discharged by evaluation,
and the remaining fields take their defaults. -/
theorem fallback_coercion_total_fields_witness :
    (fallbackToComponent sampleFallbackJson).name = "card"
    ∧ (fallbackToComponent sampleFallbackJson).files
        = [Json.str "a.tsx", Json.num 3, Json.null].map jsToString
    ∧ (fallbackToComponent sampleFallbackJson).type = "unknown"
    ∧ (fallbackToComponent sampleFallbackJson).description = none := by
  have h := fallback_coercion_total_fields sampleFallbackJson
  refine ⟨h.1.1 "card" rfl, h.2.2.1.1 _ rfl, h.2.2.2.2.2.2 ?_, h.2.1.2 ?_⟩
  · rintro ⟨s, hs⟩; simp [sampleFallbackJson, objField, lookupField] at hs
  · rintro ⟨s, hs⟩; simp [sampleFallbackJson, objField, lookupField] at hs

/-- Claim C10: when the dependency string parses as a URL whose
pathname ends in .json, the displayed short name is the last
slash-separated segment of the pathname with only the first occurrence
of .json removed; when the pathname does not end in .json, and when
parsing fails, the dependency is displayed unchanged. -/
theorem clean_dep_name_spec (parseUrl : String → Option UrlParts) (dep : String) :
    (∀ url, parseUrl dep = some url → strEndsWith url.pathname ".json" = true →
      getCleanDepName parseUrl dep
        = String.mk (replaceFirstChars
            ((splitOnChar '/' url.pathname.data).getLastD []) ".json".data []))
    ∧ (∀ url, parseUrl dep = some url → strEndsWith url.pathname ".json" = false →
      getCleanDepName parseUrl dep = dep)
    ∧ (parseUrl dep = none → getCleanDepName parseUrl dep = dep) := by
  refine ⟨?_, ?_, ?_⟩
  · intro url hp he
    simp [getCleanDepName, hp, he]
  · intro url hp he
    simp [getCleanDepName, hp, he]
  · intro hp
    simp [getCleanDepName, hp]

/-- Fixed parse result used by the C10 witness: a manifest URL whose
last pathname segment contains .json twice. -/
def sampleParseUrl : String → Option UrlParts := fun s =>
  if s = "https://ui.kitze.io/r/a.json.json" then some { pathname := "/r/a.json.json" } else none

/-- Closed instance of the C10 theorem: on the double-extension
pathname only the first .json is removed, and a non-parsing dependency
string comes back unchanged. -/
theorem clean_dep_name_spec_witness :
    getCleanDepName sampleParseUrl "https://ui.kitze.io/r/a.json.json" = "a.json"
    ∧ getCleanDepName sampleParseUrl "button" = "button" := by
  have h1 := (clean_dep_name_spec sampleParseUrl "https://ui.kitze.io/r/a.json.json").1
    { pathname := "/r/a.json.json" } (by simp [sampleParseUrl]) (by decide)
  have h2 := (clean_dep_name_spec sampleParseUrl "button").2.2 (by simp [sampleParseUrl])
  refine ⟨?_, h2⟩
  rw [h1]
  decide

end ShadcnInstall
